import Mathlib

/-!
Verification of the Jama OAuth diagnostic script (`test-jama-oauth.py`).

The script performs a two-step sequential HTTP interaction: Step A obtains an
OAuth token (POST to the token endpoint), Step B calls the projects endpoint
with the obtained bearer token.  We embed the script as a pure function from
the results of the two external HTTP calls (status/body/JSON-parse outcome, or
a transport exception) to the trace of printed lines, the process exit code,
and the outbound requests issued.
-/

namespace JamaOAuth

/-- JSON values, as decoded by the Python `json` machinery behind
`response.json()`.  Numbers are modelled as integers (the script never
manipulates numeric payloads beyond printing them). -/
inductive Json where
  | null : Json
  | bool : Bool → Json
  | num : Int → Json
  | str : String → Json
  | arr : List Json → Json
  | obj : List (String × Json) → Json

mutual

/-- Python `repr` of a decoded JSON value (used by `str` on containers). -/
def pyRepr : Json → String
  | .null => "None"
  | .bool true => "True"
  | .bool false => "False"
  | .num n => toString n
  | .str s => "\x27" ++ s ++ "\x27"
  | .arr xs => "[" ++ pyReprList xs ++ "]"
  | .obj kvs => "\x7b" ++ pyReprObj kvs ++ "\x7d"

/-- Comma-separated `repr`s of the elements of a Python list. -/
def pyReprList : List Json → String
  | [] => ""
  | [x] => pyRepr x
  | x :: y :: xs => pyRepr x ++ ", " ++ pyReprList (y :: xs)

/-- Comma-separated `key: value` `repr`s of the entries of a Python dict. -/
def pyReprObj : List (String × Json) → String
  | [] => ""
  | [(k, v)] => "\x27" ++ k ++ "\x27: " ++ pyRepr v
  | (k, v) :: e :: kvs =>
      "\x27" ++ k ++ "\x27: " ++ pyRepr v ++ ", " ++ pyReprObj (e :: kvs)

end

/-- Python `str` of an optional decoded JSON value, as interpolated by an
f-string: `None` prints as `"None"`, strings print verbatim, everything else
prints as its `repr`. -/
def pyStr : Option Json → String
  | none => "None"
  | some (.str s) => s
  | some j => pyRepr j

/-- Python `value.get(key)` on a decoded JSON value: succeeds (returning
`none` for an absent key) only when the value is a dict; any other value has
no `get` attribute and raises. -/
def pyGet (j : Json) (k : String) : Except String (Option Json) :=
  match j with
  | .obj kvs => .ok (kvs.lookup k)
  | _ => .error ("AttributeError: object has no attribute " ++ k)

/-- Python `value.get(key, default)` on a decoded JSON value. -/
def pyGetD (j : Json) (k : String) (d : Json) : Except String Json :=
  match j with
  | .obj kvs => .ok ((kvs.lookup k).getD d)
  | _ => .error ("AttributeError: object has no attribute " ++ k)

/-- Python `len` of a decoded JSON value: defined for strings, lists and
dicts; raises `TypeError` otherwise. -/
def pyLen : Json → Except String Nat
  | .str s => .ok s.length
  | .arr xs => .ok xs.length
  | .obj kvs => .ok kvs.length
  | _ => .error "TypeError: object has no len"

/-- Does `pat` match `s` at its head? -/
def subAt : List Char → List Char → Bool
  | [], _ => true
  | _ :: _, [] => false
  | a :: ps, b :: ss => a == b && subAt ps ss

/-- Does `pat` occur anywhere in `s`? -/
def hasSub (pat : List Char) : List Char → Bool
  | [] => subAt pat []
  | b :: t => subAt pat (b :: t) || hasSub pat t

/-- Python `pat in s` on strings: literal, case-sensitive substring test. -/
def strContainsSub (s pat : String) : Bool :=
  hasSub pat.toList s.toList

/-- Outcome of one HTTP call as seen by the script: either a response
(status code, raw text body, and the result of `.json()` on that body), or a
transport-level exception carrying its message. -/
structure HttpResponse where
  status : Nat
  text : String
  json : Except String Json

/-- Result of issuing an HTTP request: a response, or a raised exception. -/
inductive CallResult where
  | resp : HttpResponse → CallResult
  | exn : String → CallResult

/-- The external environment of one run: what the token endpoint and the
projects endpoint each return. -/
structure World where
  tokenResult : CallResult
  projectsResult : CallResult

/-- The headers the script attaches to the Step B projects request. -/
structure ResourceRequest where
  authorization : String
  accept : String
deriving DecidableEq

/-- Observable behaviour of one run: printed lines in order, process exit
code, and the outbound requests issued (token requests counted, resource
requests listed in order with their headers). -/
structure RunResult where
  output : List String
  exitCode : Nat
  tokenRequests : Nat
  resourceRequests : List ResourceRequest
deriving DecidableEq

def jama_base_url : String := "https://jama02.rockwellcollins.com/contour"

def token_url : String := jama_base_url ++ "/rest/oauth/token"

def projects_url : String := jama_base_url ++ "/rest/v1/projects"

/-- The banner lines printed before Step A begins (lines 15–21). -/
def preludeOutput : List String :=
  ["=== Testing Jama OAuth Scope Issue ===",
   "Token URL: " ++ token_url,
   "Projects URL: " ++ projects_url,
   "",
   "Step 1: Requesting OAuth token..."]

/-- Outcome of Step A: either a fatal path (the lines printed inside the
`try`, followed by `sys.exit(1)`), or success with the printed lines and the
extracted `access_token` value. -/
inductive StepAOutcome where
  | fatal : List String → StepAOutcome
  | proceed : List String → Option Json → StepAOutcome

/-- Step A (lines 26–49): check the token response status, parse the body,
extract `access_token`, print the token metadata.  Any exception inside the
`try` (transport failure, JSON parse failure, attribute error on `.get`) is
caught, its message printed, and the process exits with code 1; a non-200
status prints the status and raw body and exits with code 1. -/
def stepA : CallResult → StepAOutcome
  | .exn m => .fatal ["❌ Error getting token: " ++ m]
  | .resp r =>
    if r.status = 200 then
      match r.json with
      | .error e => .fatal ["❌ Error getting token: " ++ e]
      | .ok j =>
        match pyGet j "access_token" with
        | .error e => .fatal ["❌ Error getting token: " ++ e]
        | .ok tok =>
          match pyGet j "token_type" with
          | .error e =>
              .fatal ["✅ Bearer Token obtained successfully!",
                      "❌ Error getting token: " ++ e]
          | .ok tt =>
            match pyGet j "expires_in" with
            | .error e =>
                .fatal ["✅ Bearer Token obtained successfully!",
                        "Token type: " ++ pyStr tt,
                        "❌ Error getting token: " ++ e]
            | .ok ei =>
                .proceed
                  ["✅ Bearer Token obtained successfully!",
                   "Token type: " ++ pyStr tt,
                   "Expires in: " ++ pyStr ei ++ " seconds",
                   ""] tok
    else
      .fatal ["❌ Failed to get token",
              "Status Code: " ++ toString r.status,
              "Response: " ++ r.text]

/-- The headers built at lines 53–56 from the extracted `access_token`. -/
def mkHeaders (tok : Option Json) : ResourceRequest :=
  { authorization := "Bearer " ++ pyStr tok,
    accept := "application/json" }

/-- Lines printed by Step B's `try`/`except` (lines 58–82) given the result
of the projects request.  A 200 response parses the body and reports the
length of its `data` field; a non-200 response echoes status and body, with
the scope-misconfiguration diagnostic added exactly when the status is 500
and the body contains `IndexOutOfBounds`; any exception is caught and its
message printed (no exit). -/
def stepBLines : CallResult → List String
  | .exn m => ["❌ Error calling projects API: " ++ m]
  | .resp r =>
    if r.status = 200 then
      "✅ Projects API call succeeded!" ::
      (match r.json with
       | .error e => ["❌ Error calling projects API: " ++ e]
       | .ok j =>
         match pyGetD j "data" (.arr []) with
         | .error e => ["❌ Error calling projects API: " ++ e]
         | .ok v =>
           match pyLen v with
           | .error e => ["❌ Error calling projects API: " ++ e]
           | .ok n =>
               ["Found " ++ toString n ++ " projects",
                "OAuth scope is correctly set to \x27read\x27! 🎉"])
    else
      ["❌ Projects API call failed!",
       "Status Code: " ++ toString r.status,
       "Response: " ++ r.text] ++
      (if r.status == 500 && strContainsSub r.text "IndexOutOfBounds" then
        ["",
         "🎯 THIS IS THE OAUTH SCOPE ERROR!",
         "The OAuth client scope is set to \x27Token Information\x27",
         "It needs to be changed to \x27read\x27 in Jama Admin Console"]
      else [])

/-- The whole script: prelude prints, the token request, Step A; when Step A
succeeds, the headers are built, Step B's banner is printed, the projects
request is issued and its outcome handled.  The process exit code is 1
exactly on Step A's fatal paths and 0 otherwise (Step B never exits). -/
def run (w : World) : RunResult :=
  match stepA w.tokenResult with
  | .fatal ls =>
      { output := preludeOutput ++ ls,
        exitCode := 1,
        tokenRequests := 1,
        resourceRequests := [] }
  | .proceed ls tok =>
      { output := preludeOutput ++ ls ++
          ["Step 2: Testing projects API with OAuth token..."] ++
          stepBLines w.projectsResult,
        exitCode := 0,
        tokenRequests := 1,
        resourceRequests := [mkHeaders tok] }

/-! ### Helper lemmas -/

lemma data_append (p s : String) : (p ++ s).data = p.data ++ s.data := rfl

lemma append_ne_of_take (p s q : String)
    (h : q.data.take p.data.length ≠ p.data) : p ++ s ≠ q := by
  intro he
  apply h
  rw [← he, data_append, List.take_left]

/-! ### Spec-side characterisation of a Step A hard failure (used by C5) -/

/-- Spec wording for C5: Step A fails when the token call raises, returns a
non-200 status, or its 200 body raises while being processed (JSON parse
failure, or a body on which `.get` is unavailable). -/
def specStepAFailure : CallResult → Bool
  | .exn _ => true
  | .resp r =>
    if r.status = 200 then
      match r.json with
      | .error _ => true
      | .ok (.obj _) => false
      | .ok _ => true
    else true

/-! ### Concrete environments used by the witnesses -/

def goodTokenResponse : HttpResponse :=
  { status := 200,
    text := "token body",
    json := .ok (.obj [("access_token", .str "abc123"),
                       ("token_type", .str "bearer"),
                       ("expires_in", .num 3600)]) }

def w401 : World :=
  { tokenResult := .resp { status := 401, text := "error invalid_client",
                           json := .error "Expecting value" },
    projectsResult := .exn "never reached" }

def goodProjectsResponse : HttpResponse :=
  { status := 200,
    text := "projects body",
    json := .ok (.obj [("data", .arr [.obj [("id", .num 1)],
                                      .obj [("id", .num 2)]])]) }

def wGood : World :=
  { tokenResult := .resp goodTokenResponse,
    projectsResult := .resp goodProjectsResponse }

/-! ### Claims -/

/-- C1: for every execution in which the token endpoint returns an HTTP
status other than 200, the script prints the status code and the raw response
body, terminates with exit code 1, and never issues the resource request. -/
theorem C1_token_failure_aborts (w : World) (r : HttpResponse)
    (hT : w.tokenResult = .resp r) (hs : r.status ≠ 200) :
    (run w).exitCode = 1 ∧ (run w).resourceRequests = [] ∧
    ("Status Code: " ++ toString r.status) ∈ (run w).output ∧
    ("Response: " ++ r.text) ∈ (run w).output := by
  simp [run, stepA, hT, hs, preludeOutput]

theorem C1_token_failure_aborts_witness :
    (w401.tokenResult = .resp { status := 401, text := "error invalid_client",
                                json := .error "Expecting value" }) ∧
    ((401 : Nat) ≠ 200) ∧
    ((run w401).exitCode = 1 ∧ (run w401).resourceRequests = [] ∧
     ("Status Code: " ++ toString (401 : Nat)) ∈ (run w401).output ∧
     ("Response: " ++ "error invalid_client") ∈ (run w401).output) :=
  ⟨rfl, by decide,
   C1_token_failure_aborts w401
     { status := 401, text := "error invalid_client",
       json := .error "Expecting value" } rfl (by decide)⟩

/-- C3: for every execution in which the token endpoint returns HTTP 200 with
a JSON body, the resource request carries an Authorization header equal to
`"Bearer "` concatenated with the `access_token` value extracted from that
body. -/
theorem C3_bearer_header (w : World) (a : HttpResponse)
    (kvs : List (String × Json)) (t : String)
    (hT : w.tokenResult = .resp a) (ha : a.status = 200)
    (hj : a.json = .ok (.obj kvs))
    (htok : kvs.lookup "access_token" = some (.str t)) :
    (run w).resourceRequests =
      [{ authorization := "Bearer " ++ t, accept := "application/json" }] := by
  simp [run, stepA, hT, ha, hj, pyGet, htok, mkHeaders, pyStr]

theorem C3_bearer_header_witness :
    (wGood.tokenResult = .resp goodTokenResponse) ∧
    (goodTokenResponse.status = 200) ∧
    (goodTokenResponse.json = .ok (.obj [("access_token", .str "abc123"),
                                         ("token_type", .str "bearer"),
                                         ("expires_in", .num 3600)])) ∧
    ([("access_token", Json.str "abc123"), ("token_type", .str "bearer"),
      ("expires_in", .num 3600)].lookup "access_token" = some (Json.str "abc123")) ∧
    ((run wGood).resourceRequests =
      [{ authorization := "Bearer " ++ "abc123",
         accept := "application/json" }]) :=
  ⟨rfl, rfl, rfl, rfl,
   C3_bearer_header wGood goodTokenResponse
     [("access_token", .str "abc123"), ("token_type", .str "bearer"),
      ("expires_in", .num 3600)] "abc123" rfl rfl rfl rfl⟩

/-- C5: the process exit code is 1 exactly when Step A fails (the token call
raises, returns non-200, or its 200 body raises while being processed), and 0
on every other path, including all Step B failures. -/
theorem C5_exit_code (w : World) :
    (run w).exitCode = if specStepAFailure w.tokenResult then 1 else 0 := by
  rcases w with ⟨tr, pr⟩
  rcases tr with ⟨r⟩ | m
  · rcases r with ⟨s, t, j⟩
    by_cases hs : s = 200
    · subst hs
      rcases j with e | j
      · simp [run, stepA, specStepAFailure]
      · cases j <;> simp [run, stepA, specStepAFailure, pyGet]
    · simp [run, stepA, specStepAFailure, hs]
  · simp [run, stepA, specStepAFailure]

/-- C10: the script is deterministic in its external responses: two runs
receiving identical token-endpoint and resource-endpoint results produce the
same output, exit code and requests. -/
theorem C10_deterministic (w1 w2 : World)
    (h1 : w1.tokenResult = w2.tokenResult)
    (h2 : w1.projectsResult = w2.projectsResult) :
    (run w1).output = (run w2).output ∧
    (run w1).exitCode = (run w2).exitCode := by
  rcases w1 with ⟨t1, p1⟩
  rcases w2 with ⟨t2, p2⟩
  cases h1
  cases h2
  exact ⟨rfl, rfl⟩

theorem C10_deterministic_witness :
    (wGood.tokenResult = wGood.tokenResult) ∧
    (wGood.projectsResult = wGood.projectsResult) ∧
    ((run wGood).output = (run wGood).output ∧
     (run wGood).exitCode = (run wGood).exitCode) :=
  ⟨rfl, rfl, C10_deterministic wGood wGood rfl rfl⟩

def wExnA : World :=
  { tokenResult := .exn "connection refused",
    projectsResult := .exn "never reached" }

def wExnB : World :=
  { tokenResult := .resp goodTokenResponse,
    projectsResult := .exn "connection reset" }

def emptyTokenResponse : HttpResponse :=
  { status := 200,
    text := "empty body",
    json := .ok (.obj []) }

def wNoTok : World :=
  { tokenResult := .resp emptyTokenResponse,
    projectsResult := .exn "not relevant" }

/-- C6: a transport exception during Step A prints the exception message and
terminates immediately with exit code 1 (no resource request, nothing printed
after the message); a transport exception during Step B prints the exception
message and falls through to the end of the program (exit code 0, the message
is the last line printed). -/
theorem C6_exception_asymmetry (w1 w2 : World) (a : HttpResponse)
    (kvs : List (String × Json)) (m1 m2 : String)
    (h1 : w1.tokenResult = .exn m1)
    (h2T : w2.tokenResult = .resp a) (h2s : a.status = 200)
    (h2j : a.json = .ok (.obj kvs)) (h2p : w2.projectsResult = .exn m2) :
    ((run w1).exitCode = 1 ∧ (run w1).resourceRequests = [] ∧
     (run w1).output = preludeOutput ++ ["❌ Error getting token: " ++ m1]) ∧
    ((run w2).exitCode = 0 ∧
     (run w2).output =
       preludeOutput ++
       ["✅ Bearer Token obtained successfully!",
        "Token type: " ++ pyStr (kvs.lookup "token_type"),
        "Expires in: " ++ pyStr (kvs.lookup "expires_in") ++ " seconds",
        "",
        "Step 2: Testing projects API with OAuth token...",
        "❌ Error calling projects API: " ++ m2]) := by
  constructor
  · simp [run, stepA, h1]
  · simp [run, stepA, stepBLines, h2T, h2s, h2j, h2p, pyGet]

theorem C6_exception_asymmetry_witness :
    (wExnA.tokenResult = .exn "connection refused") ∧
    (wExnB.tokenResult = .resp goodTokenResponse) ∧
    (goodTokenResponse.status = 200) ∧
    (goodTokenResponse.json = .ok (.obj [("access_token", .str "abc123"),
                                         ("token_type", .str "bearer"),
                                         ("expires_in", .num 3600)])) ∧
    (wExnB.projectsResult = .exn "connection reset") ∧
    (((run wExnA).exitCode = 1 ∧ (run wExnA).resourceRequests = [] ∧
      (run wExnA).output =
        preludeOutput ++ ["❌ Error getting token: " ++ "connection refused"]) ∧
     ((run wExnB).exitCode = 0 ∧
      (run wExnB).output =
        preludeOutput ++
        ["✅ Bearer Token obtained successfully!",
         "Token type: " ++ pyStr ([("access_token", Json.str "abc123"),
            ("token_type", .str "bearer"),
            ("expires_in", .num 3600)].lookup "token_type"),
         "Expires in: " ++ pyStr ([("access_token", Json.str "abc123"),
            ("token_type", .str "bearer"),
            ("expires_in", .num 3600)].lookup "expires_in") ++ " seconds",
         "",
         "Step 2: Testing projects API with OAuth token...",
         "❌ Error calling projects API: " ++ "connection reset"])) :=
  ⟨rfl, rfl, rfl, rfl, rfl,
   C6_exception_asymmetry wExnA wExnB goodTokenResponse
     [("access_token", .str "abc123"), ("token_type", .str "bearer"),
      ("expires_in", .num 3600)]
     "connection refused" "connection reset" rfl rfl rfl rfl rfl⟩

/-- C7: a 200 token response whose JSON-object body lacks any of
`access_token`, `token_type` or `expires_in` still succeeds (exit code 0 when
Step B does not fail fatally, and the resource request is issued); when
`access_token` is absent the Authorization header is the literal string
`"Bearer None"`. -/
theorem C7_missing_fields_tolerated (w : World) (a : HttpResponse)
    (kvs : List (String × Json))
    (hT : w.tokenResult = .resp a) (ha : a.status = 200)
    (hj : a.json = .ok (.obj kvs)) :
    (run w).exitCode = 0 ∧
    ∃ req, (run w).resourceRequests = [req] ∧
      req.authorization = "Bearer " ++ pyStr (kvs.lookup "access_token") ∧
      (kvs.lookup "access_token" = none → req.authorization = "Bearer None") := by
  refine ⟨by simp [run, stepA, hT, ha, hj, pyGet],
    mkHeaders (kvs.lookup "access_token"),
    by simp [run, stepA, hT, ha, hj, pyGet], rfl, ?_⟩
  intro habs
  simp [mkHeaders, habs, pyStr]

theorem C7_missing_fields_tolerated_witness :
    (wNoTok.tokenResult = .resp emptyTokenResponse) ∧
    (emptyTokenResponse.status = 200) ∧
    (emptyTokenResponse.json = .ok (.obj [])) ∧
    ((run wNoTok).exitCode = 0 ∧
     ∃ req, (run wNoTok).resourceRequests = [req] ∧
       req.authorization =
         "Bearer " ++ pyStr (([] : List (String × Json)).lookup "access_token") ∧
       (([] : List (String × Json)).lookup "access_token" = none →
         req.authorization = "Bearer None")) :=
  ⟨rfl, rfl, rfl, C7_missing_fields_tolerated wNoTok emptyTokenResponse [] rfl rfl rfl⟩

/-- C8: every run issues at most one token request and at most one resource
request (no retries or loops), and a resource request is only ever issued in
runs whose token request completed with HTTP status 200. -/
theorem C8_single_requests (w : World) :
    (run w).tokenRequests ≤ 1 ∧ (run w).resourceRequests.length ≤ 1 ∧
    ((run w).resourceRequests = [] ∨
      ∃ a, w.tokenResult = .resp a ∧ a.status = 200) := by
  rcases w with ⟨tr, pr⟩
  rcases tr with ⟨r⟩ | m
  · rcases r with ⟨s, t, j⟩
    by_cases hs : s = 200
    · subst hs
      rcases j with e | j
      · simp [run, stepA]
      · cases j <;> simp [run, stepA, pyGet]
    · simp [run, stepA, hs]
  · simp [run, stepA]

/-- C9: a 200 resource response whose body is not parseable as JSON, or whose
`data` value has no length, does not crash the script: the exception message
is printed by Step B's handler and the process exits with code 0. -/
theorem C9_step_b_parse_safe (w : World) (a r : HttpResponse)
    (kvs : List (String × Json)) (e : String)
    (hT : w.tokenResult = .resp a) (ha : a.status = 200)
    (hj : a.json = .ok (.obj kvs))
    (hB : w.projectsResult = .resp r) (hr : r.status = 200)
    (hcase : r.json = .error e ∨
      ∃ pkvs v, r.json = .ok (.obj pkvs) ∧ pkvs.lookup "data" = some v ∧
        pyLen v = .error e) :
    (run w).exitCode = 0 ∧
    ("❌ Error calling projects API: " ++ e) ∈ (run w).output := by
  rcases hcase with hje | ⟨pkvs, v, hjok, hdata, hlen⟩
  · constructor
    · simp [run, stepA, hT, ha, hj, pyGet]
    · simp [run, stepA, stepBLines, hT, ha, hj, hB, hr, hje, pyGet]
  · constructor
    · simp [run, stepA, hT, ha, hj, pyGet]
    · simp [run, stepA, stepBLines, hT, ha, hj, hB, hr, hjok, hdata, hlen,
        pyGet, pyGetD]

def badJsonProjectsResponse : HttpResponse :=
  { status := 200,
    text := "not json",
    json := .error "Expecting value" }

def wBadJson : World :=
  { tokenResult := .resp goodTokenResponse,
    projectsResult := .resp badJsonProjectsResponse }

theorem C9_step_b_parse_safe_witness :
    (wBadJson.tokenResult = .resp goodTokenResponse) ∧
    (goodTokenResponse.status = 200) ∧
    (goodTokenResponse.json = .ok (.obj [("access_token", .str "abc123"),
                                         ("token_type", .str "bearer"),
                                         ("expires_in", .num 3600)])) ∧
    (wBadJson.projectsResult = .resp badJsonProjectsResponse) ∧
    (badJsonProjectsResponse.status = 200) ∧
    (badJsonProjectsResponse.json = .error "Expecting value") ∧
    ((run wBadJson).exitCode = 0 ∧
     ("❌ Error calling projects API: " ++ "Expecting value") ∈
       (run wBadJson).output) :=
  ⟨rfl, rfl, rfl, rfl, rfl, rfl,
   C9_step_b_parse_safe wBadJson goodTokenResponse badJsonProjectsResponse
     [("access_token", .str "abc123"), ("token_type", .str "bearer"),
      ("expires_in", .num 3600)] "Expecting value"
     rfl rfl rfl rfl rfl (Or.inl rfl)⟩

/-- C4: for every 200 resource response with a JSON-object body, the project
count printed equals the length of the body's `data` field, and equals 0 when
the `data` field is absent. -/
theorem C4_project_count (w : World) (a r : HttpResponse)
    (kvs pkvs : List (String × Json))
    (hT : w.tokenResult = .resp a) (ha : a.status = 200)
    (hj : a.json = .ok (.obj kvs))
    (hB : w.projectsResult = .resp r) (hr : r.status = 200)
    (hrj : r.json = .ok (.obj pkvs)) :
    (∀ xs, pkvs.lookup "data" = some (.arr xs) →
      ("Found " ++ toString xs.length ++ " projects") ∈ (run w).output) ∧
    (pkvs.lookup "data" = none →
      "Found 0 projects" ∈ (run w).output) := by
  constructor
  · intro xs hdata
    simp [run, stepA, stepBLines, hT, ha, hj, hB, hr, hrj, hdata,
      pyGet, pyGetD, pyLen]
  · intro hdata
    have h0 : ("Found " ++ toString (0 : Nat) ++ " projects") ∈ (run w).output := by
      simp [run, stepA, stepBLines, hT, ha, hj, hB, hr, hrj, hdata,
        pyGet, pyGetD, pyLen]
    exact h0

theorem C4_project_count_witness :
    (wGood.tokenResult = .resp goodTokenResponse) ∧
    (goodTokenResponse.status = 200) ∧
    (goodTokenResponse.json = .ok (.obj [("access_token", .str "abc123"),
                                         ("token_type", .str "bearer"),
                                         ("expires_in", .num 3600)])) ∧
    (wGood.projectsResult = .resp goodProjectsResponse) ∧
    (goodProjectsResponse.status = 200) ∧
    (goodProjectsResponse.json =
      .ok (.obj [("data", .arr [.obj [("id", .num 1)],
                                .obj [("id", .num 2)]])])) ∧
    ([("data", Json.arr [.obj [("id", .num 1)], .obj [("id", .num 2)]])].lookup
        "data" = some (Json.arr [.obj [("id", .num 1)], .obj [("id", .num 2)]])) ∧
    ("Found " ++ toString ([Json.obj [("id", .num 1)],
        Json.obj [("id", .num 2)]].length) ++ " projects") ∈ (run wGood).output :=
  ⟨rfl, rfl, rfl, rfl, rfl, rfl, rfl,
   (C4_project_count wGood goodTokenResponse goodProjectsResponse
     [("access_token", .str "abc123"), ("token_type", .str "bearer"),
      ("expires_in", .num 3600)]
     [("data", .arr [.obj [("id", .num 1)], .obj [("id", .num 2)]])]
     rfl rfl rfl rfl rfl rfl).1
     [Json.obj [("id", .num 1)], Json.obj [("id", .num 2)]] rfl⟩

lemma str_append_assoc (a b c : String) : (a ++ b) ++ c = a ++ (b ++ c) := by
  rcases a with ⟨as⟩
  rcases b with ⟨bs⟩
  rcases c with ⟨cs⟩
  exact congrArg String.mk (List.append_assoc as bs cs)

/-- C2: for every non-200 resource response, the scope-misconfiguration
diagnostic is printed if and only if the status is exactly 500 and the raw
body contains the literal, case-sensitive substring `IndexOutOfBounds`. -/
theorem C2_scope_diagnostic (w : World) (a r : HttpResponse)
    (kvs : List (String × Json))
    (hT : w.tokenResult = .resp a) (ha : a.status = 200)
    (hj : a.json = .ok (.obj kvs))
    (hB : w.projectsResult = .resp r) (hs : r.status ≠ 200) :
    ("🎯 THIS IS THE OAUTH SCOPE ERROR!" ∈ (run w).output ↔
      (r.status = 500 ∧ strContainsSub r.text "IndexOutOfBounds" = true)) := by
  have hout : (run w).output =
      preludeOutput ++
      ["✅ Bearer Token obtained successfully!",
       "Token type: " ++ pyStr (kvs.lookup "token_type"),
       "Expires in: " ++ pyStr (kvs.lookup "expires_in") ++ " seconds",
       "",
       "Step 2: Testing projects API with OAuth token...",
       "❌ Projects API call failed!",
       "Status Code: " ++ toString r.status,
       "Response: " ++ r.text] ++
      (if r.status == 500 && strContainsSub r.text "IndexOutOfBounds" then
        ["",
         "🎯 THIS IS THE OAUTH SCOPE ERROR!",
         "The OAuth client scope is set to \x27Token Information\x27",
         "It needs to be changed to \x27read\x27 in Jama Admin Console"]
      else []) := by
    simp [run, stepA, stepBLines, hT, ha, hj, hB, hs, pyGet, preludeOutput]
  rcases Bool.eq_false_or_eq_true
      (r.status == 500 && strContainsSub r.text "IndexOutOfBounds") with
    hcond | hcond
  · apply iff_of_true
    · rw [hout, hcond]
      simp
    · have hc := hcond
      simp only [Bool.and_eq_true, beq_iff_eq] at hc
      exact hc
  · apply iff_of_false
    · have hne1 : ∀ s, "🎯 THIS IS THE OAUTH SCOPE ERROR!" ≠ "Token type: " ++ s := by
        intro s he
        refine append_ne_of_take "Token type: " s
          "🎯 THIS IS THE OAUTH SCOPE ERROR!" ?_ he.symm
        decide
      have hne2 : ∀ s, "🎯 THIS IS THE OAUTH SCOPE ERROR!" ≠
          "Expires in: " ++ s ++ " seconds" := by
        intro s he
        have h2 : "Expires in: " ++ (s ++ " seconds") =
            "🎯 THIS IS THE OAUTH SCOPE ERROR!" := by
          rw [← str_append_assoc]
          exact he.symm
        refine append_ne_of_take "Expires in: " (s ++ " seconds")
          "🎯 THIS IS THE OAUTH SCOPE ERROR!" ?_ h2
        decide
      have hne3 : ∀ s, "🎯 THIS IS THE OAUTH SCOPE ERROR!" ≠ "Status Code: " ++ s := by
        intro s he
        refine append_ne_of_take "Status Code: " s
          "🎯 THIS IS THE OAUTH SCOPE ERROR!" ?_ he.symm
        decide
      have hne4 : ∀ s, "🎯 THIS IS THE OAUTH SCOPE ERROR!" ≠ "Response: " ++ s := by
        intro s he
        refine append_ne_of_take "Response: " s
          "🎯 THIS IS THE OAUTH SCOPE ERROR!" ?_ he.symm
        decide
      have hne5 : ∀ s, "🎯 THIS IS THE OAUTH SCOPE ERROR!" ≠ "Token URL: " ++ s := by
        intro s he
        refine append_ne_of_take "Token URL: " s
          "🎯 THIS IS THE OAUTH SCOPE ERROR!" ?_ he.symm
        decide
      have hne6 : ∀ s, "🎯 THIS IS THE OAUTH SCOPE ERROR!" ≠ "Projects URL: " ++ s := by
        intro s he
        refine append_ne_of_take "Projects URL: " s
          "🎯 THIS IS THE OAUTH SCOPE ERROR!" ?_ he.symm
        decide
      rw [hout, hcond]
      intro hmem
      simp [preludeOutput, hne1, hne2, hne3, hne4, hne5, hne6] at hmem
    · rintro ⟨h5, hsub⟩
      rw [h5, hsub] at hcond
      simp at hcond

def scope500Response : HttpResponse :=
  { status := 500,
    text := "java.lang.IndexOutOfBoundsException: Index 3 out of bounds",
    json := .error "Expecting value" }

def wScope500 : World :=
  { tokenResult := .resp goodTokenResponse,
    projectsResult := .resp scope500Response }

theorem C2_scope_diagnostic_witness :
    (wScope500.tokenResult = .resp goodTokenResponse) ∧
    (goodTokenResponse.status = 200) ∧
    (goodTokenResponse.json = .ok (.obj [("access_token", .str "abc123"),
                                         ("token_type", .str "bearer"),
                                         ("expires_in", .num 3600)])) ∧
    (wScope500.projectsResult = .resp scope500Response) ∧
    (scope500Response.status ≠ 200) ∧
    ("🎯 THIS IS THE OAUTH SCOPE ERROR!" ∈ (run wScope500).output ↔
      (scope500Response.status = 500 ∧
       strContainsSub scope500Response.text "IndexOutOfBounds" = true)) :=
  ⟨rfl, rfl, rfl, rfl, by decide,
   C2_scope_diagnostic wScope500 goodTokenResponse scope500Response
     [("access_token", .str "abc123"), ("token_type", .str "bearer"),
      ("expires_in", .num 3600)] rfl rfl rfl rfl (by decide)⟩

end JamaOAuth
